import Mathlib

/-!
Verification of the vision sensor-correction unit of the local position
estimator (`src/modules/local_position_estimator/sensors/vision.cpp`).

The C++ functions `visionInit`, `visionMeasure`, `visionCorrect` and
`visionCheckTimeout` are shallowly embedded as state-transformer functions
over an explicit `State` record.  Floating-point values are idealised as
rationals; `sqrtf` and the external collaborators that live outside the
translated file (the delay buffer accessor `getDelayPeriods`, the matrix
inverse `inv`, the chi-square table `BETA_TABLE`, the global/local converter
and the `BlockStats` accumulator) are supplied through an `Env` record or
modelled from the specification, as noted on each definition.
-/

namespace LPEVision

/-- State dimension `n_x` of the parent estimator.  Modelled from the spec:
the state vector X has dimension `n_x`, owned by the parent estimator (its
header is not part of the translated file); the concrete value does not
matter for the vision unit, which only touches state components 0..2. -/
abbrev n_x : Nat := 10

/-- Measurement dimension for the vision sensor (`n_y_vision`). -/
abbrev n_y_vision : Nat := 3

/-- Source constant: `static constexpr float EP_MAX_STD_DEV = 100.0f;` -/
def EP_MAX_STD_DEV : ℚ := 100

/-- Source constant: `static const uint32_t REQ_VISION_INIT_COUNT = 1;` -/
def REQ_VISION_INIT_COUNT : Nat := 1

/-- Source constant: `static const uint32_t VISION_TIMEOUT = 500000;  // 0.5 s` -/
def VISION_TIMEOUT : Nat := 500000

/-- Modelled from the spec: the shared health bitmask owns exactly one
fault bit and one timeout bit for this unit; `SENSOR_VISION` is that bit
(a single bit of a 16-bit mask in the parent estimator's header, which is
not part of the translated file). -/
def SENSOR_VISION : Nat := 32

/-- Modelled from the spec: clearing one bit of the 16-bit shared health
bitmask, i.e. the C++ `mask &= ~SENSOR_VISION` on a `uint16_t` field. -/
def maskClear (f bit : Nat) : Nat := f &&& (65535 ^^^ bit)

/-- Unsigned 64-bit subtraction `a - b` as used on the microsecond
timestamps (`uint64_t` arithmetic, wrapping modulo `2^64`). -/
def usub64 (a b : Nat) : Nat := (a + (2 ^ 64 - b % 2 ^ 64)) % 2 ^ 64

/-- A vector of rationals indexed by `Fin n`. -/
abbrev Vec (n : Nat) := Fin n → ℚ

/-- Human-readable notifications sent to the mavlink log, abstracted to
tags (the formatted text is irrelevant to the verified properties). -/
inductive Msg : Type
  | visionInited      -- "[lpe] vision position init: ..."
  | globalOriginInited -- "[lpe] global origin init (vision) ..."
  | visionInvalid     -- "[lpe] vision data invalid. eph: ... epv: ..."
  | visionFault       -- "[lpe] vision position fault, beta ..."
  | visionOK          -- "[lpe] vision position OK"
  | visionTimeout     -- "[lpe] vision position timeout"
  deriving DecidableEq

/-- The latest visual-odometry sample, `_sub_visual_odom.get()`.  The three
relevant diagonal covariance entries are stored directly; `covFinite`
models `PX4_ISFINITE(pose_covariance[x_variance])` and `posFinite` models
`PX4_ISFINITE(x)` (rationals cannot encode NaN/Inf, so finiteness of the
tested float fields is carried as explicit flags). -/
structure Sample where
  timestamp : Nat
  x : ℚ
  y : ℚ
  z : ℚ
  covX : ℚ
  covY : ℚ
  covZ : ℚ
  covFinite : Bool
  posFinite : Bool
  deriving DecidableEq

/-- Modelled from the spec: the Running Statistics Accumulator
(`BlockStats<float, n_y_vision>`, not part of the translated file).
`update` adds a sample to the streaming sums and increments the count;
`reset` clears all state so that `getCount() = 0` afterwards. -/
structure VisionStats where
  sum : Vec n_y_vision
  sumSq : Vec n_y_vision
  count : Nat
  deriving DecidableEq

def VisionStats.update (st : VisionStats) (y : Vec n_y_vision) : VisionStats :=
  { sum := fun i => st.sum i + y i
    sumSq := fun i => st.sumSq i + y i * y i
    count := st.count + 1 }

def VisionStats.reset : VisionStats :=
  { sum := fun _ => 0, sumSq := fun _ => 0, count := 0 }

def VisionStats.getCount (st : VisionStats) : Nat := st.count

/-- The read-only environment of one cycle: the latest sample, the
configuration parameters, and the external collaborators that are not part
of the translated file.
* `sqrtf` stands for the C library square root on floats;
* `betaTable` is the shared chi-square table `BETA_TABLE`, indexed by
  measurement dimensionality (modelled from the spec);
* `getDelayPeriods` is the Delay Buffer Accessor of the parent estimator:
  it converts a delay in seconds to a history index and fails (`none`)
  when the delay exceeds the retained horizon (modelled from the spec);
* `xDelay` is the historical state buffer `_xDelay.get`;
* `inv3` is the matrix library's `inv<float, n_y_vision>`;
* `glcRefLat`/`glcRefLon`/`glcRefAlt`/`glcInitDone` are the outputs of the
  global/local converter used by `visionInit` (modelled from the spec). -/
structure Env where
  sample : Sample
  vision_xy_stddev : ℚ
  vision_z_stddev : ℚ
  vision_delay : ℚ
  sqrtf : ℚ → ℚ
  betaTable : Nat → ℚ
  getDelayPeriods : ℚ → Option Nat
  xDelay : Nat → Vec n_x
  inv3 : Matrix (Fin n_y_vision) (Fin n_y_vision) ℚ →
    Matrix (Fin n_y_vision) (Fin n_y_vision) ℚ
  glcRefLat : ℚ
  glcRefLon : ℚ
  glcRefAlt : ℚ
  glcInitDone : Bool

/-- The mutable fields of `BlockLocalPositionEstimator` touched by the
vision unit, plus the diagnostics and notification sinks (modelled as
state so that publications are observable). -/
structure State where
  x : Vec n_x                                   -- `_x`
  P : Matrix (Fin n_x) (Fin n_x) ℚ              -- `_P`
  sensorFault : Nat                             -- `_sensorFault`
  sensorTimeout : Nat                           -- `_sensorTimeout`
  visionStats : VisionStats                     -- `_visionStats`
  vision_eph : ℚ                                -- `_vision_eph`
  vision_epv : ℚ                                -- `_vision_epv`
  vision_xy_valid : Bool                        -- `_vision_xy_valid`
  vision_z_valid : Bool                         -- `_vision_z_valid`
  time_last_vision_p : Nat                      -- `_time_last_vision_p`
  timeStamp : Nat                               -- `_timeStamp` (read-only here)
  innov : Vec 6                                 -- `_pub_innov...vel_pos_innov`
  innovVar : Vec 6                              -- `..vel_pos_innov_var`
  msgs : List Msg                               -- mavlink log, newest last
  mapRefInitDone : Bool                         -- `_map_ref.init_done`
  ref_lat : ℚ                                   -- `_ref_lat`
  ref_lon : ℚ                                   -- `_ref_lon`
  ref_alt : ℚ                                   -- `_ref_alt`
  global_ref_timestamp : Nat                    -- `_global_ref_timestamp`
  is_global_cov_init : Bool                     -- `_is_global_cov_init`
  time_origin : Nat                             -- `_time_origin`
  altOriginInitialized : Bool                   -- `_altOriginInitialized`
  altOriginGlobal : Bool                        -- `_altOriginGlobal`
  altOrigin : ℚ                                 -- `_altOrigin`

/-- The value `sqrtf(fmaxf(pose_covariance[x_variance], pose_covariance[y_variance]))`. -/
def measuredEph (e : Env) : ℚ := e.sqrtf (max e.sample.covX e.sample.covY)

/-- The value `sqrtf(pose_covariance[z_variance])`. -/
def measuredEpv (e : Env) : ℚ := e.sqrtf e.sample.covZ

/-- Value of `_vision_xy_valid` after the covariance check of
`visionMeasure`. -/
def visionXYValidAfter (e : Env) : Bool :=
  if e.sample.covFinite then decide (measuredEph e ≤ EP_MAX_STD_DEV) else true

/-- Value of `_vision_z_valid` after the covariance check of
`visionMeasure`. -/
def visionZValidAfter (e : Env) : Bool :=
  if e.sample.covFinite then decide (measuredEpv e ≤ EP_MAX_STD_DEV) else true

/-- First half of `visionMeasure` (vision.cpp lines 72-84): derive the
per-axis uncertainties and validity flags from the sample covariance, with
the assume-valid fallback when the covariance is not finite. -/
def measureValidity (e : Env) (s : State) : State :=
  if e.sample.covFinite then
    { s with
      vision_eph := measuredEph e
      vision_epv := measuredEpv e
      vision_xy_valid := visionXYValidAfter e
      vision_z_valid := visionZValidAfter e }
  else
    { s with vision_xy_valid := true, vision_z_valid := true }

/-- The measurement vector built on the success path of `visionMeasure`
(`y.setZero()` followed by writing components 0..2). -/
def visionY (e : Env) : Vec n_y_vision := fun i =>
  if i = 0 then e.sample.x else if i = 1 then e.sample.y
  else if i = 2 then e.sample.z else 0

/-- Embedding of `BlockLocalPositionEstimator::visionMeasure` (vision.cpp lines 67-105).
Returns the successor state together with `some y` when the function
returns `OK` and `none` when it returns `-1`. -/
def visionMeasure (e : Env) (s : State) : State × Option (Vec n_y_vision) :=
  let s1 := measureValidity e s
  if !s1.vision_xy_valid || !s1.vision_z_valid then
    ({ s1 with time_last_vision_p := e.sample.timestamp }, none)
  else
    let s2 := { s1 with time_last_vision_p := e.sample.timestamp }
    if e.sample.posFinite then
      let y := visionY e
      ({ s2 with visionStats := s2.visionStats.update y }, some y)
    else
      (s2, none)

/-- The vision measurement matrix `C` (measures position): zero except the
unit entries `C(Y_vision_x, X_x)`, `C(Y_vision_y, X_y)`, `C(Y_vision_z, X_z)`
at state indices 0..2. -/
def visionC : Matrix (Fin n_y_vision) (Fin n_x) ℚ :=
  Matrix.of fun i j =>
    if i = 0 ∧ j = 0 then 1
    else if i = 1 ∧ j = 1 then 1
    else if i = 2 ∧ j = 2 then 1
    else 0

/-- The measurement noise matrix `R` built by `visionCorrect` (vision.cpp
lines 131-144): diagonal, `R(0,0) = R(1,1)` is the square of the cached
`_vision_eph` when it exceeds the configured `_vision_xy_stddev` floor and
the square of the floor otherwise, and likewise `R(2,2)` from `_vision_epv`
against `_vision_z_stddev`. -/
def visionR (e : Env) (s : State) : Matrix (Fin n_y_vision) (Fin n_y_vision) ℚ :=
  let rxy := if s.vision_eph > e.vision_xy_stddev
             then s.vision_eph * s.vision_eph
             else e.vision_xy_stddev * e.vision_xy_stddev
  let rz := if s.vision_epv > e.vision_z_stddev
            then s.vision_epv * s.vision_epv
            else e.vision_z_stddev * e.vision_z_stddev
  Matrix.diagonal ![rxy, rxy, rz]

/-- The computation `float vision_delay = (_timeStamp - ..timestamp) * 1e-6f` followed by
the clamp `if (vision_delay < 0.0f) vision_delay = 0.0f` (the subtraction
itself is unsigned 64-bit, so the clamp is a no-op there). -/
def visionDelaySeconds (e : Env) (t : Nat) : ℚ :=
  let d : ℚ := (usub64 t e.sample.timestamp : ℚ) * (1 / 1000000)
  if d < 0 then 0 else d

/-- The delay passed to `getDelayPeriods`: the configured `_vision_delay`
parameter when positive, otherwise the auto-computed delay. -/
def visionDelayArg (e : Env) (t : Nat) : ℚ :=
  if e.vision_delay > 0 then e.vision_delay else visionDelaySeconds e t

/-- Residual `r = y - C * x0`. -/
def visionResidual (y : Vec n_y_vision) (x0 : Vec n_x) : Vec n_y_vision :=
  y - visionC.mulVec x0

/-- Residual covariance `S = C * P * C^T + R`. -/
def visionS (e : Env) (s : State) : Matrix (Fin n_y_vision) (Fin n_y_vision) ℚ :=
  visionC * s.P * visionC.transpose + visionR e s

/-- The two publication loops of `visionCorrect` (vision.cpp lines 166-174):
slots 0..2 of the innovation vector and its variances receive `r(i)` and
`S(i,i)`, slots 3..5 receive the placeholders 0 and 1. -/
def publishInnov (s : State) (r : Vec n_y_vision)
    (S : Matrix (Fin n_y_vision) (Fin n_y_vision) ℚ) : State :=
  { s with
    innov := fun i => if h : (i : Nat) < 3 then r ⟨i, h⟩ else 0
    innovVar := fun i => if h : (i : Nat) < 3 then S ⟨i, h⟩ ⟨i, h⟩ else 1 }

/-- The fault-detection step of `visionCorrect` (vision.cpp lines 182-191):
given `beta`, the chi-square threshold and the current fault mask, return
the new fault mask and the emitted notifications.  The transition is
edge-triggered: the fault notification fires only when the bit was clear,
the recovery notification only when it was set. -/
def visionFaultDetect (beta threshold : ℚ) (fault : Nat) : Nat × List Msg :=
  if beta > threshold then
    if fault &&& SENSOR_VISION = 0 then
      (fault ||| SENSOR_VISION, [Msg.visionFault])
    else
      (fault, [])
  else if fault &&& SENSOR_VISION ≠ 0 then
    (maskClear fault SENSOR_VISION, [Msg.visionOK])
  else
    (fault, [])

/-- The normalised innovation statistic `beta = r^T * (S_I * r)` computed
by `visionCorrect` for the post-measurement state `s` and history index
`i_hist`. -/
def visionBeta (e : Env) (s : State) (y : Vec n_y_vision) (i_hist : Nat) : ℚ :=
  let r := visionResidual y (e.xDelay i_hist)
  Matrix.dotProduct r ((e.inv3 (visionS e s)).mulVec r)

/-- Tail of `visionCorrect` after a successful delay lookup: publish the
innovation diagnostics, run the fault detector, and apply the Kalman
correction `x += K*r`, `P -= K*C*P` when the fault bit ends up clear. -/
def visionCorrectApply (e : Env) (s : State) (y : Vec n_y_vision)
    (i_hist : Nat) : State :=
  let x0 := e.xDelay i_hist
  let r := visionResidual y x0
  let S := visionS e s
  let s2 := publishInnov s r S
  let S_I := e.inv3 S
  let beta := Matrix.dotProduct r (S_I.mulVec r)
  let fd := visionFaultDetect beta (e.betaTable n_y_vision) s2.sensorFault
  let s3 := { s2 with sensorFault := fd.1, msgs := s2.msgs ++ fd.2 }
  if s3.sensorFault &&& SENSOR_VISION = 0 then
    let K := s3.P * visionC.transpose * S_I
    { s3 with x := s3.x + K.mulVec r, P := s3.P - K * visionC * s3.P }
  else
    s3

/-- Continuation of `visionCorrect` after a successful measurement: converting the delay to
a history index aborts the cycle (plain `return`) when the requested delay
exceeds the buffer's retained horizon.  (In the source, `C` and `R` are
assembled before this lookup; building them is side-effect free, so the
abort point is observationally the same.) -/
def visionCorrectGo (e : Env) (s : State) (y : Vec n_y_vision) : State :=
  match e.getDelayPeriods (visionDelayArg e s.timeStamp) with
  | none => s
  | some i_hist => visionCorrectApply e s y i_hist

/-- Embedding of `BlockLocalPositionEstimator::visionCorrect` (vision.cpp lines 107-198).
A failed measurement logs the invalid-data notification and returns. -/
def visionCorrect (e : Env) (s : State) : State :=
  match visionMeasure e s with
  | (s1, none) => { s1 with msgs := s1.msgs ++ [Msg.visionInvalid] }
  | (s1, some y) => visionCorrectGo e s1 y

/-- Success tail of `visionInit` (vision.cpp lines 32-64): emit the init
notification, clear the timeout and fault bits, latch the global reference,
and establish the map/altitude origins when not yet done. -/
def visionInitFinish (e : Env) (s : State) : State :=
  let sA := { s with
    msgs := s.msgs ++ [Msg.visionInited]
    sensorTimeout := maskClear s.sensorTimeout SENSOR_VISION
    sensorFault := maskClear s.sensorFault SENSOR_VISION
    ref_lat := e.glcRefLat
    ref_lon := e.glcRefLon
    ref_alt := e.glcRefAlt
    global_ref_timestamp := s.timeStamp
    is_global_cov_init := e.glcInitDone }
  let sB :=
    if !sA.mapRefInitDone && sA.is_global_cov_init then
      { sA with
        msgs := sA.msgs ++ [Msg.globalOriginInited]
        mapRefInitDone := true
        time_origin := sA.timeStamp }
    else sA
  if !sB.altOriginInitialized then
    { sB with
      altOriginInitialized := true
      altOriginGlobal := true
      altOrigin := if e.glcInitDone then sB.ref_alt else 0 }
  else sB

/-- Embedding of `BlockLocalPositionEstimator::visionInit` (vision.cpp lines 21-65).
A failed measurement resets the statistics accumulator; a successful one
completes initialization only once the accumulated count exceeds
`REQ_VISION_INIT_COUNT`. -/
def visionInit (e : Env) (s : State) : State :=
  match visionMeasure e s with
  | (s1, none) => { s1 with visionStats := VisionStats.reset }
  | (s1, some _) =>
    if s1.visionStats.getCount > REQ_VISION_INIT_COUNT then
      visionInitFinish e s1
    else
      s1

/-- Embedding of `BlockLocalPositionEstimator::visionCheckTimeout` (vision.cpp
lines 200-209). -/
def visionCheckTimeout (s : State) : State :=
  if usub64 s.timeStamp s.time_last_vision_p > VISION_TIMEOUT then
    if s.sensorTimeout &&& SENSOR_VISION = 0 then
      { s with
        sensorTimeout := s.sensorTimeout ||| SENSOR_VISION
        visionStats := VisionStats.reset
        msgs := s.msgs ++ [Msg.visionTimeout] }
    else s
  else s

/-- Iterated fault detection: fold `visionFaultDetect` over a sequence of
`beta` values, threading the fault mask and collecting the emitted
notifications. -/
def runBetas (threshold : ℚ) (fault : Nat) (betas : List ℚ) : Nat × List Msg :=
  betas.foldl
    (fun acc beta =>
      let fd := visionFaultDetect beta threshold acc.1
      (fd.1, acc.2 ++ fd.2))
    (fault, [])

/-- A concrete sample used to evaluate the embedded functions on closed
inputs. -/
def wSample : Sample :=
  { timestamp := 1000, x := 1, y := 2, z := 3,
    covX := 4, covY := 9, covZ := 16, covFinite := true, posFinite := true }

/-- A concrete environment for closed evaluations.  `sqrtf` and `inv3` are
instantiated with arbitrary computable functions, as none of the verified
properties depend on their values. -/
def wEnv : Env :=
  { sample := wSample
    vision_xy_stddev := 1 / 10
    vision_z_stddev := 1 / 10
    vision_delay := 0
    sqrtf := fun q => q
    betaTable := fun _ => 0
    getDelayPeriods := fun _ => some 0
    xDelay := fun _ => fun _ => 0
    inv3 := fun _ => 1
    glcRefLat := 47
    glcRefLon := 8
    glcRefAlt := 500
    glcInitDone := true }

/-- Variant of `wEnv` with a delay buffer whose retained horizon is always
exceeded. -/
def wEnvNoDelay : Env := { wEnv with getDelayPeriods := fun _ => none }

/-- Variant of `wEnv` with a sample whose covariance entries are not finite. -/
def wEnvNoCov : Env :=
  { wEnv with sample := { wSample with covFinite := false } }

/-- An accumulator that has already absorbed one sample. -/
def wStats1 : VisionStats :=
  { sum := fun _ => 0, sumSq := fun _ => 0, count := 1 }

/-- A concrete estimator state for closed evaluations. -/
def wState : State :=
  { x := fun _ => 0
    P := 0
    sensorFault := 0
    sensorTimeout := 32
    visionStats := VisionStats.reset
    vision_eph := 5
    vision_epv := 6
    vision_xy_valid := false
    vision_z_valid := false
    time_last_vision_p := 0
    timeStamp := 2000
    innov := fun _ => 0
    innovVar := fun _ => 0
    msgs := []
    mapRefInitDone := false
    ref_lat := 0
    ref_lon := 0
    ref_alt := 0
    global_ref_timestamp := 0
    is_global_cov_init := false
    time_origin := 0
    altOriginInitialized := false
    altOriginGlobal := false
    altOrigin := 0 }

/-- Variant of `wState` with one sample already accumulated. -/
def wStateStats1 : State := { wState with visionStats := wStats1 }

/-- Variant of `wState` with the vision timeout expired and the timeout bit
clear. -/
def wStateExpired : State :=
  { wState with timeStamp := 600001, sensorTimeout := 0 }

section MeasureLemmas

variable (e : Env) (s : State)

theorem measureValidity_x : (measureValidity e s).x = s.x := by
  unfold measureValidity; split <;> rfl

theorem measureValidity_P : (measureValidity e s).P = s.P := by
  unfold measureValidity; split <;> rfl

theorem measureValidity_fault : (measureValidity e s).sensorFault = s.sensorFault := by
  unfold measureValidity; split <;> rfl

theorem measureValidity_timeoutBit :
    (measureValidity e s).sensorTimeout = s.sensorTimeout := by
  unfold measureValidity; split <;> rfl

theorem measureValidity_stats : (measureValidity e s).visionStats = s.visionStats := by
  unfold measureValidity; split <;> rfl

theorem measureValidity_tlast :
    (measureValidity e s).time_last_vision_p = s.time_last_vision_p := by
  unfold measureValidity; split <;> rfl

theorem measureValidity_tstamp : (measureValidity e s).timeStamp = s.timeStamp := by
  unfold measureValidity; split <;> rfl

theorem measureValidity_innov : (measureValidity e s).innov = s.innov := by
  unfold measureValidity; split <;> rfl

theorem measureValidity_innovVar : (measureValidity e s).innovVar = s.innovVar := by
  unfold measureValidity; split <;> rfl

theorem measureValidity_msgs : (measureValidity e s).msgs = s.msgs := by
  unfold measureValidity; split <;> rfl

theorem measureValidity_xy_valid :
    (measureValidity e s).vision_xy_valid = visionXYValidAfter e := by
  unfold measureValidity visionXYValidAfter; split <;> rfl

theorem measureValidity_z_valid :
    (measureValidity e s).vision_z_valid = visionZValidAfter e := by
  unfold measureValidity visionZValidAfter; split <;> rfl

theorem measureValidity_eph :
    (measureValidity e s).vision_eph =
      (if e.sample.covFinite then measuredEph e else s.vision_eph) := by
  unfold measureValidity; split <;> simp_all

theorem measureValidity_epv :
    (measureValidity e s).vision_epv =
      (if e.sample.covFinite then measuredEpv e else s.vision_epv) := by
  unfold measureValidity; split <;> simp_all

theorem visionMeasure_fst_x : ((visionMeasure e s).1).x = s.x := by
  simp only [visionMeasure]
  split
  · simp [measureValidity_x]
  · split <;> simp [measureValidity_x]

theorem visionMeasure_fst_P : ((visionMeasure e s).1).P = s.P := by
  simp only [visionMeasure]
  split
  · simp [measureValidity_P]
  · split <;> simp [measureValidity_P]

theorem visionMeasure_fst_fault :
    ((visionMeasure e s).1).sensorFault = s.sensorFault := by
  simp only [visionMeasure]
  split
  · simp [measureValidity_fault]
  · split <;> simp [measureValidity_fault]

theorem visionMeasure_fst_timeoutBit :
    ((visionMeasure e s).1).sensorTimeout = s.sensorTimeout := by
  simp only [visionMeasure]
  split
  · simp [measureValidity_timeoutBit]
  · split <;> simp [measureValidity_timeoutBit]

theorem visionMeasure_fst_tstamp :
    ((visionMeasure e s).1).timeStamp = s.timeStamp := by
  simp only [visionMeasure]
  split
  · simp [measureValidity_tstamp]
  · split <;> simp [measureValidity_tstamp]

theorem visionMeasure_fst_innov : ((visionMeasure e s).1).innov = s.innov := by
  simp only [visionMeasure]
  split
  · simp [measureValidity_innov]
  · split <;> simp [measureValidity_innov]

theorem visionMeasure_fst_innovVar :
    ((visionMeasure e s).1).innovVar = s.innovVar := by
  simp only [visionMeasure]
  split
  · simp [measureValidity_innovVar]
  · split <;> simp [measureValidity_innovVar]

theorem visionMeasure_fst_msgs : ((visionMeasure e s).1).msgs = s.msgs := by
  simp only [visionMeasure]
  split
  · simp [measureValidity_msgs]
  · split <;> simp [measureValidity_msgs]

theorem visionMeasure_fst_tlast :
    ((visionMeasure e s).1).time_last_vision_p = e.sample.timestamp := by
  simp only [visionMeasure]
  split
  · simp
  · split <;> simp

theorem visionMeasure_fst_xy_valid :
    ((visionMeasure e s).1).vision_xy_valid = visionXYValidAfter e := by
  simp only [visionMeasure]
  split
  · simp [measureValidity_xy_valid]
  · split <;> simp [measureValidity_xy_valid]

theorem visionMeasure_fst_z_valid :
    ((visionMeasure e s).1).vision_z_valid = visionZValidAfter e := by
  simp only [visionMeasure]
  split
  · simp [measureValidity_z_valid]
  · split <;> simp [measureValidity_z_valid]

theorem visionMeasure_fst_eph :
    ((visionMeasure e s).1).vision_eph =
      (if e.sample.covFinite then measuredEph e else s.vision_eph) := by
  simp only [visionMeasure]
  split
  · simp [measureValidity_eph]
  · split <;> simp [measureValidity_eph]

theorem visionMeasure_fst_epv :
    ((visionMeasure e s).1).vision_epv =
      (if e.sample.covFinite then measuredEpv e else s.vision_epv) := by
  simp only [visionMeasure]
  split
  · simp [measureValidity_epv]
  · split <;> simp [measureValidity_epv]

theorem visionMeasure_snd :
    (visionMeasure e s).2 =
      (if (visionXYValidAfter e && visionZValidAfter e) && e.sample.posFinite
       then some (visionY e) else none) := by
  cases hxy : visionXYValidAfter e <;> cases hz : visionZValidAfter e <;>
    cases hp : e.sample.posFinite <;>
      simp [visionMeasure, measureValidity_xy_valid, measureValidity_z_valid,
        hxy, hz, hp]

theorem visionMeasure_fst_stats_of_some (y : Vec n_y_vision)
    (h : (visionMeasure e s).2 = some y) :
    ((visionMeasure e s).1).visionStats = s.visionStats.update y := by
  cases hxy : visionXYValidAfter e <;> cases hz : visionZValidAfter e <;>
    cases hp : e.sample.posFinite <;>
      simp_all [visionMeasure, measureValidity_xy_valid,
        measureValidity_z_valid, measureValidity_stats, hxy, hz, hp]

theorem visionMeasure_fst_stats_of_none
    (h : (visionMeasure e s).2 = none) :
    ((visionMeasure e s).1).visionStats = s.visionStats := by
  cases hxy : visionXYValidAfter e <;> cases hz : visionZValidAfter e <;>
    cases hp : e.sample.posFinite <;>
      simp_all [visionMeasure, measureValidity_xy_valid,
        measureValidity_z_valid, measureValidity_stats, hxy, hz, hp]

end MeasureLemmas

theorem sensorBit_or (f : Nat) : (f ||| SENSOR_VISION) &&& SENSOR_VISION ≠ 0 := by
  intro h
  have h5 : ((f ||| SENSOR_VISION) &&& SENSOR_VISION).testBit 5
      = (0 : Nat).testBit 5 := by rw [h]
  rw [Nat.testBit_land, Nat.testBit_lor] at h5
  simp only [SENSOR_VISION] at h5
  rw [show Nat.testBit 32 5 = true from by decide,
    show Nat.testBit 0 5 = false from by decide] at h5
  simp at h5

theorem sensorBit_clear (f : Nat) :
    maskClear f SENSOR_VISION &&& SENSOR_VISION = 0 := by
  unfold maskClear SENSOR_VISION
  rw [Nat.land_assoc, show (65535 ^^^ 32) &&& 32 = 0 from by decide]
  apply Nat.eq_of_testBit_eq
  intro i
  rw [Nat.testBit_land]
  simp

/-- Claim C5: for every sample whose covariance entries are finite,
`visionMeasure` computes horizontal uncertainty `sqrt(max(varX, varY))` and
vertical uncertainty `sqrt(varZ)`, and declares each axis valid iff its
uncertainty is at most `EP_MAX_STD_DEV = 100`; uncertainty exactly equal to
the ceiling is valid. -/
theorem visionMeasure_uncertainty_validity (e : Env) (s : State)
    (h : e.sample.covFinite = true) :
    ((visionMeasure e s).1).vision_eph
        = e.sqrtf (max e.sample.covX e.sample.covY) ∧
    ((visionMeasure e s).1).vision_epv = e.sqrtf e.sample.covZ ∧
    (((visionMeasure e s).1).vision_xy_valid = true ↔
        ((visionMeasure e s).1).vision_eph ≤ EP_MAX_STD_DEV) ∧
    (((visionMeasure e s).1).vision_z_valid = true ↔
        ((visionMeasure e s).1).vision_epv ≤ EP_MAX_STD_DEV) ∧
    (((visionMeasure e s).1).vision_eph = EP_MAX_STD_DEV →
        ((visionMeasure e s).1).vision_xy_valid = true) ∧
    (((visionMeasure e s).1).vision_epv = EP_MAX_STD_DEV →
        ((visionMeasure e s).1).vision_z_valid = true) := by
  rw [visionMeasure_fst_eph, visionMeasure_fst_epv, visionMeasure_fst_xy_valid,
    visionMeasure_fst_z_valid]
  unfold visionXYValidAfter visionZValidAfter measuredEph measuredEpv
  rw [h]
  simp only [if_true]
  refine ⟨by trivial, by trivial, by simp, by simp, fun h1 => ?_, fun h2 => ?_⟩
  · simp [h1]
  · simp [h2]

/-- Claim C6: a sample whose covariance entries are not finite is treated
as valid on both axes (assume-valid fallback); it is never rejected on
validity grounds — `visionMeasure` then fails exactly when the position
itself is not finite. -/
theorem visionMeasure_assume_valid_fallback (e : Env) (s : State)
    (h : e.sample.covFinite = false) :
    ((visionMeasure e s).1).vision_xy_valid = true ∧
    ((visionMeasure e s).1).vision_z_valid = true ∧
    ((visionMeasure e s).2 = none ↔ e.sample.posFinite = false) := by
  rw [visionMeasure_fst_xy_valid, visionMeasure_fst_z_valid, visionMeasure_snd]
  unfold visionXYValidAfter visionZValidAfter
  cases hp : e.sample.posFinite <;> simp [h, hp]

/-- Claim C9: every call to `visionMeasure` records the sample timestamp as
last-seen, whether it succeeds or fails; the statistics accumulator is
updated with `Y` (its count incremented) exactly when the call succeeds,
and is untouched on the failure path. -/
theorem visionMeasure_timestamp_and_stats (e : Env) (s : State) :
    ((visionMeasure e s).1).time_last_vision_p = e.sample.timestamp ∧
    (∀ y, (visionMeasure e s).2 = some y →
        ((visionMeasure e s).1).visionStats = s.visionStats.update y ∧
        ((visionMeasure e s).1).visionStats.getCount
          = s.visionStats.getCount + 1) ∧
    ((visionMeasure e s).2 = none →
        ((visionMeasure e s).1).visionStats = s.visionStats) := by
  refine ⟨visionMeasure_fst_tlast e s, fun y hy => ⟨?_, ?_⟩,
    visionMeasure_fst_stats_of_none e s⟩
  · exact visionMeasure_fst_stats_of_some e s y hy
  · rw [visionMeasure_fst_stats_of_some e s y hy]
    rfl

/-- Claim C10: when the covariance entry is not finite, `visionMeasure`
leaves the cached uncertainty fields `_vision_eph`/`_vision_epv` unchanged
while still accepting the sample as valid on both axes (succeeding whenever
the position is finite), so the noise matrix `R` a subsequent
`visionCorrect` builds from the resulting state equals the one built from
the uncertainties cached before the call. -/
theorem visionMeasure_nonfinite_keeps_cached_R (e : Env) (s : State)
    (h : e.sample.covFinite = false) :
    ((visionMeasure e s).1).vision_eph = s.vision_eph ∧
    ((visionMeasure e s).1).vision_epv = s.vision_epv ∧
    ((visionMeasure e s).1).vision_xy_valid = true ∧
    ((visionMeasure e s).1).vision_z_valid = true ∧
    (e.sample.posFinite = true →
        (visionMeasure e s).2 = some (visionY e)) ∧
    (∀ e2 : Env, visionR e2 ((visionMeasure e s).1) = visionR e2 s) := by
  have he := visionMeasure_fst_eph e s
  have hv := visionMeasure_fst_epv e s
  rw [h] at he hv
  simp only [Bool.false_eq_true, if_false] at he hv
  refine ⟨he, hv, ?_, ?_, fun hp => ?_, fun e2 => ?_⟩
  · rw [visionMeasure_fst_xy_valid]
    unfold visionXYValidAfter
    simp [h]
  · rw [visionMeasure_fst_z_valid]
    unfold visionZValidAfter
    simp [h]
  · rw [visionMeasure_snd]
    unfold visionXYValidAfter visionZValidAfter
    simp [h, hp]
  · simp only [visionR, he, hv]

theorem publishInnov_x (s : State) (r : Vec n_y_vision)
    (S : Matrix (Fin n_y_vision) (Fin n_y_vision) ℚ) :
    (publishInnov s r S).x = s.x := rfl

theorem publishInnov_P (s : State) (r : Vec n_y_vision)
    (S : Matrix (Fin n_y_vision) (Fin n_y_vision) ℚ) :
    (publishInnov s r S).P = s.P := rfl

theorem publishInnov_fault (s : State) (r : Vec n_y_vision)
    (S : Matrix (Fin n_y_vision) (Fin n_y_vision) ℚ) :
    (publishInnov s r S).sensorFault = s.sensorFault := rfl

theorem publishInnov_msgs (s : State) (r : Vec n_y_vision)
    (S : Matrix (Fin n_y_vision) (Fin n_y_vision) ℚ) :
    (publishInnov s r S).msgs = s.msgs := rfl

theorem visionCorrect_eq_apply (e : Env) (s : State) (y : Vec n_y_vision)
    (i : Nat) (hm : (visionMeasure e s).2 = some y)
    (hd : e.getDelayPeriods (visionDelayArg e s.timeStamp) = some i) :
    visionCorrect e s = visionCorrectApply e (visionMeasure e s).1 y i := by
  have hpair : visionMeasure e s = ((visionMeasure e s).1, some y) := by
    rw [← hm]
  unfold visionCorrect
  rw [hpair]
  show visionCorrectGo e (visionMeasure e s).1 y = _
  unfold visionCorrectGo
  rw [visionMeasure_fst_tstamp, hd]

theorem visionCorrectApply_fault_msgs (e : Env) (s1 : State)
    (y : Vec n_y_vision) (i : Nat) :
    (visionCorrectApply e s1 y i).sensorFault
      = (visionFaultDetect (visionBeta e s1 y i) (e.betaTable n_y_vision)
          s1.sensorFault).1 ∧
    (visionCorrectApply e s1 y i).msgs
      = s1.msgs ++ (visionFaultDetect (visionBeta e s1 y i)
          (e.betaTable n_y_vision) s1.sensorFault).2 := by
  simp only [visionCorrectApply]
  split
  · exact ⟨rfl, rfl⟩
  · exact ⟨rfl, rfl⟩

theorem visionCorrectApply_of_fault (e : Env) (s1 : State)
    (y : Vec n_y_vision) (i : Nat)
    (hf : (visionFaultDetect (visionBeta e s1 y i) (e.betaTable n_y_vision)
        s1.sensorFault).1 &&& SENSOR_VISION ≠ 0) :
    visionCorrectApply e s1 y i =
      { publishInnov s1 (visionResidual y (e.xDelay i)) (visionS e s1) with
          sensorFault := (visionFaultDetect (visionBeta e s1 y i)
            (e.betaTable n_y_vision) s1.sensorFault).1
          msgs := s1.msgs ++ (visionFaultDetect (visionBeta e s1 y i)
            (e.betaTable n_y_vision) s1.sensorFault).2 } := by
  simp only [visionCorrectApply]
  split
  · rename_i hcond
    exact absurd hcond hf
  · rfl

/-- Claim C7: if the elapsed time since the last-seen vision timestamp
exceeds `VISION_TIMEOUT` and the vision timeout bit is clear,
`visionCheckTimeout` sets the bit, resets the statistics accumulator and
emits exactly one critical notification; if the bit is already set, or the
timeout has not elapsed, the call changes nothing and emits nothing; and
the monitor never clears a set timeout bit. -/
theorem visionCheckTimeout_fires_once (s : State) :
    (usub64 s.timeStamp s.time_last_vision_p > VISION_TIMEOUT →
      (s.sensorTimeout &&& SENSOR_VISION = 0 →
        visionCheckTimeout s =
          { s with
              sensorTimeout := s.sensorTimeout ||| SENSOR_VISION
              visionStats := VisionStats.reset
              msgs := s.msgs ++ [Msg.visionTimeout] }) ∧
      (s.sensorTimeout &&& SENSOR_VISION ≠ 0 → visionCheckTimeout s = s)) ∧
    (¬ usub64 s.timeStamp s.time_last_vision_p > VISION_TIMEOUT →
        visionCheckTimeout s = s) ∧
    (s.sensorTimeout &&& SENSOR_VISION ≠ 0 →
        (visionCheckTimeout s).sensorTimeout &&& SENSOR_VISION ≠ 0) := by
  by_cases hc : usub64 s.timeStamp s.time_last_vision_p > VISION_TIMEOUT <;>
    by_cases hb : s.sensorTimeout &&& SENSOR_VISION = 0 <;>
      simp [visionCheckTimeout, hc, hb]

/-- Claim C8: the measurement-noise matrix `R` assembled on every
non-aborted `visionCorrect` cycle (the `visionR` component of the embedded
`visionCorrectApply`) is diagonal with `R(0,0) = R(1,1)` the square of the
larger of the cached horizontal uncertainty and the configured horizontal
floor, `R(2,2)` the square of the larger of the cached vertical uncertainty
and the configured vertical floor, and zero off the diagonal. -/
theorem visionCorrect_noise_matrix_R (e : Env) (s : State) :
    visionR e s 0 0
        = max s.vision_eph e.vision_xy_stddev
            * max s.vision_eph e.vision_xy_stddev ∧
    visionR e s 1 1
        = max s.vision_eph e.vision_xy_stddev
            * max s.vision_eph e.vision_xy_stddev ∧
    visionR e s 2 2
        = max s.vision_epv e.vision_z_stddev
            * max s.vision_epv e.vision_z_stddev ∧
    (∀ i j : Fin n_y_vision, i ≠ j → visionR e s i j = 0) := by
  have hxy : (if s.vision_eph > e.vision_xy_stddev
      then s.vision_eph * s.vision_eph
      else e.vision_xy_stddev * e.vision_xy_stddev)
      = max s.vision_eph e.vision_xy_stddev
          * max s.vision_eph e.vision_xy_stddev := by
    by_cases h : s.vision_eph > e.vision_xy_stddev
    · rw [if_pos h, max_eq_left (le_of_lt h)]
    · rw [if_neg h, max_eq_right (not_lt.mp h)]
  have hz : (if s.vision_epv > e.vision_z_stddev
      then s.vision_epv * s.vision_epv
      else e.vision_z_stddev * e.vision_z_stddev)
      = max s.vision_epv e.vision_z_stddev
          * max s.vision_epv e.vision_z_stddev := by
    by_cases h : s.vision_epv > e.vision_z_stddev
    · rw [if_pos h, max_eq_left (le_of_lt h)]
    · rw [if_neg h, max_eq_right (not_lt.mp h)]
  refine ⟨?_, ?_, ?_, fun i j hij => ?_⟩
  · simp only [visionR, Matrix.diagonal_apply_eq]
    simpa using hxy
  · simp only [visionR, Matrix.diagonal_apply_eq]
    simpa using hxy
  · simp only [visionR, Matrix.diagonal_apply_eq]
    simpa using hz
  · simp only [visionR]
    exact Matrix.diagonal_apply_ne _ hij

/-- Claim C3: when the requested measurement delay exceeds the delay
buffer's retained horizon (`getDelayPeriods` fails), `visionCorrect`
returns with the state vector `X`, the covariance `P` and the vision fault
bit unchanged. -/
theorem visionCorrect_stale_delay_aborts (e : Env) (s : State)
    (y : Vec n_y_vision)
    (hm : (visionMeasure e s).2 = some y)
    (hd : e.getDelayPeriods (visionDelayArg e s.timeStamp) = none) :
    (visionCorrect e s).x = s.x ∧
    (visionCorrect e s).P = s.P ∧
    (visionCorrect e s).sensorFault &&& SENSOR_VISION
      = s.sensorFault &&& SENSOR_VISION := by
  have hpair : visionMeasure e s = ((visionMeasure e s).1, some y) := by
    rw [← hm]
  have hcor : visionCorrect e s = (visionMeasure e s).1 := by
    unfold visionCorrect
    rw [hpair]
    show visionCorrectGo e (visionMeasure e s).1 y = _
    unfold visionCorrectGo
    rw [visionMeasure_fst_tstamp, hd]
  rw [hcor, visionMeasure_fst_x, visionMeasure_fst_P, visionMeasure_fst_fault]
  exact ⟨rfl, rfl, rfl⟩

/-- Claim C1: on a non-aborted `visionCorrect` cycle (measurement accepted,
delay within the buffer horizon), if the vision fault bit is set after the
fault-detection step then `X` and `P` are unchanged by the call, while the
innovation and innovation-variance diagnostics are still published: slots
0..2 carry the residual and the diagonal of `S`, slots 3..5 the
placeholders 0 and 1. -/
theorem visionCorrect_fault_keeps_xP (e : Env) (s : State)
    (y : Vec n_y_vision) (i : Nat)
    (hm : (visionMeasure e s).2 = some y)
    (hd : e.getDelayPeriods (visionDelayArg e s.timeStamp) = some i)
    (hf : (visionFaultDetect (visionBeta e (visionMeasure e s).1 y i)
            (e.betaTable n_y_vision) s.sensorFault).1
          &&& SENSOR_VISION ≠ 0) :
    (visionCorrect e s).x = s.x ∧
    (visionCorrect e s).P = s.P ∧
    (∀ j : Fin 6, (visionCorrect e s).innov j =
        (if h : (j : Nat) < 3
         then visionResidual y (e.xDelay i) ⟨j, h⟩ else 0)) ∧
    (∀ j : Fin 6, (visionCorrect e s).innovVar j =
        (if h : (j : Nat) < 3
         then visionS e (visionMeasure e s).1 ⟨j, h⟩ ⟨j, h⟩ else 1)) := by
  rw [← visionMeasure_fst_fault e s] at hf
  rw [visionCorrect_eq_apply e s y i hm hd,
    visionCorrectApply_of_fault e (visionMeasure e s).1 y i hf]
  refine ⟨?_, ?_, fun j => rfl, fun j => rfl⟩
  · exact visionMeasure_fst_x e s
  · exact visionMeasure_fst_P e s

theorem visionInitFinish_fault (e : Env) (s1 : State) :
    (visionInitFinish e s1).sensorFault
      = maskClear s1.sensorFault SENSOR_VISION := by
  simp only [visionInitFinish]
  split <;> split <;> rfl

theorem visionInitFinish_timeoutBit (e : Env) (s1 : State) :
    (visionInitFinish e s1).sensorTimeout
      = maskClear s1.sensorTimeout SENSOR_VISION := by
  simp only [visionInitFinish]
  split <;> split <;> rfl

theorem visionInitFinish_mem_msgs (e : Env) (s1 : State) :
    Msg.visionInited ∈ (visionInitFinish e s1).msgs := by
  simp only [visionInitFinish]
  split <;> split <;> simp

/-- Claim C4: `visionInit` completes initialization (clearing the vision
fault and timeout bits and emitting the init notification) only when the
statistics count after the accepted sample exceeds `REQ_VISION_INIT_COUNT
= 1` — each accepted sample adds exactly one to the count, so at least two
consecutive accepted samples are required — and any measurement failure
during initialization resets the accumulator, returning its count to 0. -/
theorem visionInit_two_samples_required (e : Env) (s : State) :
    ((visionMeasure e s).2 = none →
        visionInit e s
          = { (visionMeasure e s).1 with visionStats := VisionStats.reset } ∧
        (visionInit e s).visionStats.getCount = 0) ∧
    (∀ y, (visionMeasure e s).2 = some y →
        ((visionMeasure e s).1).visionStats.getCount
            = s.visionStats.getCount + 1 ∧
        (((visionMeasure e s).1).visionStats.getCount ≤ REQ_VISION_INIT_COUNT →
            visionInit e s = (visionMeasure e s).1) ∧
        (((visionMeasure e s).1).visionStats.getCount > REQ_VISION_INIT_COUNT →
            (visionInit e s).sensorFault &&& SENSOR_VISION = 0 ∧
            (visionInit e s).sensorTimeout &&& SENSOR_VISION = 0 ∧
            Msg.visionInited ∈ (visionInit e s).msgs)) := by
  constructor
  · intro hm
    have hpair : visionMeasure e s = ((visionMeasure e s).1, none) := by
      rw [← hm]
    have : visionInit e s
        = { (visionMeasure e s).1 with visionStats := VisionStats.reset } := by
      unfold visionInit
      rw [hpair]
    exact ⟨this, by rw [this]; rfl⟩
  · intro y hm
    have hpair : visionMeasure e s = ((visionMeasure e s).1, some y) := by
      rw [← hm]
    have hcount : ((visionMeasure e s).1).visionStats.getCount
        = s.visionStats.getCount + 1 := by
      rw [visionMeasure_fst_stats_of_some e s y hm]
      rfl
    refine ⟨hcount, fun hle => ?_, fun hgt => ?_⟩
    · unfold visionInit
      rw [hpair]
      show (if ((visionMeasure e s).1).visionStats.getCount
          > REQ_VISION_INIT_COUNT then _ else _) = _
      rw [if_neg (not_lt.mpr hle)]
    · have hfin : visionInit e s = visionInitFinish e (visionMeasure e s).1 := by
        unfold visionInit
        rw [hpair]
        show (if ((visionMeasure e s).1).visionStats.getCount
            > REQ_VISION_INIT_COUNT then _ else _) = _
        rw [if_pos hgt]
      rw [hfin, visionInitFinish_fault, visionInitFinish_timeoutBit]
      exact ⟨sensorBit_clear _, sensorBit_clear _, visionInitFinish_mem_msgs e _⟩

/-- Claim C2: the fault detector is edge-triggered.  On a non-aborted
`visionCorrect` cycle the new fault mask and the emitted notifications are
those of `visionFaultDetect` applied to the cycle's `beta`, the chi-square
threshold and the previous mask; `visionFaultDetect` emits the fault
notification exactly when `beta` exceeds the threshold while the bit was
clear (the bit is then set), the recovery notification exactly when `beta`
is within the threshold while the bit was set (the bit is then cleared),
and nothing when the bit's value does not change; and for a beta sequence
[below, below, above, above, below] started with the bit clear, exactly two
notifications are emitted. -/
theorem visionCorrect_fault_edge_triggered :
    (∀ (e : Env) (s : State) (y : Vec n_y_vision) (i : Nat),
        (visionMeasure e s).2 = some y →
        e.getDelayPeriods (visionDelayArg e s.timeStamp) = some i →
        (visionCorrect e s).sensorFault
            = (visionFaultDetect (visionBeta e (visionMeasure e s).1 y i)
                (e.betaTable n_y_vision) s.sensorFault).1 ∧
        (visionCorrect e s).msgs
            = s.msgs ++ (visionFaultDetect
                (visionBeta e (visionMeasure e s).1 y i)
                (e.betaTable n_y_vision) s.sensorFault).2) ∧
    (∀ (beta threshold : ℚ) (f : Nat),
        ((visionFaultDetect beta threshold f).2 = [Msg.visionFault] ↔
            beta > threshold ∧ f &&& SENSOR_VISION = 0) ∧
        ((visionFaultDetect beta threshold f).2 = [Msg.visionOK] ↔
            ¬ beta > threshold ∧ f &&& SENSOR_VISION ≠ 0) ∧
        ((visionFaultDetect beta threshold f).1 &&& SENSOR_VISION ≠ 0 ↔
            beta > threshold) ∧
        ((visionFaultDetect beta threshold f).1 &&& SENSOR_VISION
              = f &&& SENSOR_VISION →
            (visionFaultDetect beta threshold f).2 = [])) ∧
    (∀ (threshold b0 b1 b2 b3 b4 : ℚ) (f : Nat),
        f &&& SENSOR_VISION = 0 →
        b0 ≤ threshold → b1 ≤ threshold → threshold < b2 → threshold < b3 →
        b4 ≤ threshold →
        ((runBetas threshold f [b0, b1, b2, b3, b4]).2).length = 2) := by
  refine ⟨?_, ?_, ?_⟩
  · intro e s y i hm hd
    rw [visionCorrect_eq_apply e s y i hm hd, ← visionMeasure_fst_fault e s,
      ← visionMeasure_fst_msgs e s]
    exact visionCorrectApply_fault_msgs e (visionMeasure e s).1 y i
  · intro beta T f
    by_cases hb : beta > T
    · by_cases hf : f &&& SENSOR_VISION = 0
      · refine ⟨?_, ?_, ?_, ?_⟩
        · simp [visionFaultDetect, hb, hf]
        · simp [visionFaultDetect, hb, hf]
        · simp [visionFaultDetect, hb, hf, sensorBit_or f]
        · intro hsame
          rw [show (visionFaultDetect beta T f).1 = f ||| SENSOR_VISION from
              by simp [visionFaultDetect, hb, hf], hf] at hsame
          exact absurd hsame (sensorBit_or f)
      · refine ⟨?_, ?_, ?_, ?_⟩
        · simp [visionFaultDetect, hb, hf]
        · simp [visionFaultDetect, hb, hf]
        · simp [visionFaultDetect, hb, hf]
        · intro _
          simp [visionFaultDetect, hb, hf]
    · by_cases hf : f &&& SENSOR_VISION = 0
      · refine ⟨?_, ?_, ?_, ?_⟩
        · simp [visionFaultDetect, hb, hf]
        · simp [visionFaultDetect, hb, hf]
        · simp [visionFaultDetect, hb, hf]
        · intro _
          simp [visionFaultDetect, hb, hf]
      · refine ⟨?_, ?_, ?_, ?_⟩
        · simp [visionFaultDetect, hb, hf]
        · simp [visionFaultDetect, hb, hf]
        · simp [visionFaultDetect, hb, hf, sensorBit_clear f]
        · intro hsame
          rw [show (visionFaultDetect beta T f).1
              = maskClear f SENSOR_VISION from
              by simp [visionFaultDetect, hb, hf], sensorBit_clear f] at hsame
          exact absurd hsame.symm hf
  · intro T b0 b1 b2 b3 b4 f hf h0 h1 h2 h3 h4
    have n0 : ¬ b0 > T := not_lt.mpr h0
    have n1 : ¬ b1 > T := not_lt.mpr h1
    have n4 : ¬ b4 > T := not_lt.mpr h4
    have hnf : ¬ f &&& SENSOR_VISION ≠ 0 := not_not_intro hf
    have s0 : visionFaultDetect b0 T f = (f, []) := by
      unfold visionFaultDetect
      rw [if_neg n0, if_neg hnf]
    have s1 : visionFaultDetect b1 T f = (f, []) := by
      unfold visionFaultDetect
      rw [if_neg n1, if_neg hnf]
    have s2 : visionFaultDetect b2 T f
        = (f ||| SENSOR_VISION, [Msg.visionFault]) := by
      unfold visionFaultDetect
      rw [if_pos h2, if_pos hf]
    have s3 : visionFaultDetect b3 T (f ||| SENSOR_VISION)
        = (f ||| SENSOR_VISION, []) := by
      unfold visionFaultDetect
      rw [if_pos h3, if_neg (sensorBit_or f)]
    have s4 : visionFaultDetect b4 T (f ||| SENSOR_VISION)
        = (maskClear (f ||| SENSOR_VISION) SENSOR_VISION, [Msg.visionOK]) := by
      unfold visionFaultDetect
      rw [if_neg n4, if_pos (sensorBit_or f)]
    simp [runBetas, s0, s1, s2, s3, s4]

/-- Witness for claim C5 at the concrete environment `wEnv`. -/
theorem visionMeasure_uncertainty_validity_witness :
    wEnv.sample.covFinite = true ∧
    ((visionMeasure wEnv wState).1).vision_eph
        = wEnv.sqrtf (max wEnv.sample.covX wEnv.sample.covY) ∧
    (((visionMeasure wEnv wState).1).vision_xy_valid = true ↔
        ((visionMeasure wEnv wState).1).vision_eph ≤ EP_MAX_STD_DEV) :=
  ⟨by decide, (visionMeasure_uncertainty_validity wEnv wState (by decide)).1,
    (visionMeasure_uncertainty_validity wEnv wState (by decide)).2.2.1⟩

/-- Witness for claim C6 at the concrete environment `wEnvNoCov`. -/
theorem visionMeasure_assume_valid_fallback_witness :
    wEnvNoCov.sample.covFinite = false ∧
    ((visionMeasure wEnvNoCov wState).1).vision_xy_valid = true ∧
    ((visionMeasure wEnvNoCov wState).2 = none ↔
        wEnvNoCov.sample.posFinite = false) :=
  ⟨by decide, (visionMeasure_assume_valid_fallback wEnvNoCov wState (by decide)).1,
    (visionMeasure_assume_valid_fallback wEnvNoCov wState (by decide)).2.2⟩

/-- Witness for claim C9 at the concrete environment `wEnv`. -/
theorem visionMeasure_timestamp_and_stats_witness :
    (visionMeasure wEnv wState).2 = some (visionY wEnv) ∧
    ((visionMeasure wEnv wState).1).visionStats
        = wState.visionStats.update (visionY wEnv) :=
  ⟨by decide, ((visionMeasure_timestamp_and_stats wEnv wState).2.1
      (visionY wEnv) (by decide)).1⟩

/-- Witness for claim C10 at the concrete environment `wEnvNoCov`. -/
theorem visionMeasure_nonfinite_keeps_cached_R_witness :
    ((visionMeasure wEnvNoCov wState).1).vision_eph = wState.vision_eph ∧
    visionR wEnv ((visionMeasure wEnvNoCov wState).1) = visionR wEnv wState :=
  ⟨(visionMeasure_nonfinite_keeps_cached_R wEnvNoCov wState (by decide)).1,
    (visionMeasure_nonfinite_keeps_cached_R wEnvNoCov wState
      (by decide)).2.2.2.2.2 wEnv⟩

/-- Witness for claim C7 at the concrete expired state `wStateExpired`. -/
theorem visionCheckTimeout_fires_once_witness :
    usub64 wStateExpired.timeStamp wStateExpired.time_last_vision_p
        > VISION_TIMEOUT ∧
    visionCheckTimeout wStateExpired =
      { wStateExpired with
          sensorTimeout := wStateExpired.sensorTimeout ||| SENSOR_VISION
          visionStats := VisionStats.reset
          msgs := wStateExpired.msgs ++ [Msg.visionTimeout] } :=
  ⟨by decide,
    ((visionCheckTimeout_fires_once wStateExpired).1 (by decide)).1 (by decide)⟩

/-- Witness for claim C8 at the concrete environment `wEnv`: an
off-diagonal entry of `R` is zero. -/
theorem visionCorrect_noise_matrix_R_witness :
    visionR wEnv wState 0 1 = 0 :=
  (visionCorrect_noise_matrix_R wEnv wState).2.2.2 0 1 (by decide)

/-- Witness for claim C3 at the concrete environment `wEnvNoDelay`. -/
theorem visionCorrect_stale_delay_aborts_witness :
    (visionCorrect wEnvNoDelay wState).x = wState.x ∧
    (visionCorrect wEnvNoDelay wState).P = wState.P :=
  ⟨(visionCorrect_stale_delay_aborts wEnvNoDelay wState (visionY wEnvNoDelay)
      (by decide) (by decide)).1,
    (visionCorrect_stale_delay_aborts wEnvNoDelay wState (visionY wEnvNoDelay)
      (by decide) (by decide)).2.1⟩

/-- Witness for claim C4 at the concrete state `wStateStats1` (count 1, so
the accepted sample makes the count 2 and initialization completes). -/
theorem visionInit_two_samples_required_witness :
    (visionInit wEnv wStateStats1).sensorFault &&& SENSOR_VISION = 0 ∧
    Msg.visionInited ∈ (visionInit wEnv wStateStats1).msgs :=
  ⟨(((visionInit_two_samples_required wEnv wStateStats1).2 (visionY wEnv)
      (by decide)).2.2 (by decide)).1,
    (((visionInit_two_samples_required wEnv wStateStats1).2 (visionY wEnv)
      (by decide)).2.2 (by decide)).2.2⟩

theorem wBeta_val :
    visionBeta wEnv (visionMeasure wEnv wState).1 (visionY wEnv) 0 = 14 := by
  have hr : visionResidual (visionY wEnv) (wEnv.xDelay 0) = visionY wEnv := by
    show visionY wEnv - visionC.mulVec (fun _ => 0) = visionY wEnv
    rw [show (fun _ => (0 : ℚ)) = (0 : Vec n_x) from rfl, Matrix.mulVec_zero,
      sub_zero]
  show Matrix.dotProduct (visionResidual (visionY wEnv) (wEnv.xDelay 0))
      ((wEnv.inv3 (visionS wEnv (visionMeasure wEnv wState).1)).mulVec
        (visionResidual (visionY wEnv) (wEnv.xDelay 0))) = 14
  rw [hr,
    show wEnv.inv3 (visionS wEnv (visionMeasure wEnv wState).1) = 1 from rfl,
    Matrix.one_mulVec, Matrix.dotProduct, Fin.sum_univ_three]
  rw [show visionY wEnv 0 = 1 from rfl, show visionY wEnv 1 = 2 from rfl,
    show visionY wEnv 2 = 3 from rfl]
  norm_num

theorem wFault_val :
    (visionFaultDetect (visionBeta wEnv (visionMeasure wEnv wState).1
        (visionY wEnv) 0) (wEnv.betaTable n_y_vision)
        wState.sensorFault).1 &&& SENSOR_VISION ≠ 0 := by
  rw [wBeta_val]
  decide

/-- Witness for claim C1 at the concrete environment `wEnv` (where the
cycle's `beta` exceeds the zero threshold, so the fault bit is set after
fault detection). -/
theorem visionCorrect_fault_keeps_xP_witness :
    (visionFaultDetect (visionBeta wEnv (visionMeasure wEnv wState).1
        (visionY wEnv) 0) (wEnv.betaTable n_y_vision)
        wState.sensorFault).1 &&& SENSOR_VISION ≠ 0 ∧
    (visionCorrect wEnv wState).x = wState.x ∧
    (visionCorrect wEnv wState).P = wState.P :=
  ⟨wFault_val,
    (visionCorrect_fault_keeps_xP wEnv wState (visionY wEnv) 0
      (by decide) (by decide) wFault_val).1,
    (visionCorrect_fault_keeps_xP wEnv wState (visionY wEnv) 0
      (by decide) (by decide) wFault_val).2.1⟩

/-- Witness for claim C2: a concrete non-aborted cycle, and the concrete
beta sequence [-1, -1, 1, 1, -1] against threshold 0 yielding exactly two
notifications. -/
theorem visionCorrect_fault_edge_triggered_witness :
    ((visionCorrect wEnv wState).msgs
        = wState.msgs ++ (visionFaultDetect
            (visionBeta wEnv (visionMeasure wEnv wState).1 (visionY wEnv) 0)
            (wEnv.betaTable n_y_vision) wState.sensorFault).2) ∧
    ((runBetas 0 0 [-1, -1, 1, 1, -1]).2).length = 2 :=
  ⟨(visionCorrect_fault_edge_triggered.1 wEnv wState (visionY wEnv) 0
      (by decide) (by decide)).2,
    visionCorrect_fault_edge_triggered.2.2 0 (-1) (-1) 1 1 (-1) 0
      (by decide) (by decide) (by decide) (by decide) (by decide) (by decide)⟩

end LPEVision
